import Mathlib

/-!
Shallow embedding of the RAG chatbot core (`backend/ai_generator.py` and
`backend/search_tools.py`), with theorems checking the specification's
claims about the round-based tool-orchestration loop and the tools.

The Anthropic model service is modelled as an oracle mapping the index of
the model call (0-based, in call order) to the response it returns, exactly
as the repository's own tests mock `client.messages.create` with a
`side_effect` list.  Tool managers are modelled as executors returning
`Except String String`: `.error e` stands for a Python exception whose
`str` is `e`.
-/

set_option maxHeartbeats 1000000

namespace RagSpec

/-- Python truthiness of an optional string (`if s:`): `None` and `""` are falsy. -/
def strOptTruthy : Option String → Bool
  | none => false
  | some s => !(s == "")

/-- Python truthiness of an optional integer (`if n:`): `None` and `0` are falsy. -/
def intOptTruthy : Option Int → Bool
  | none => false
  | some n => !(n == 0)

/-- Python `str` of an `int`. -/
def pyIntStr (n : Int) : String :=
  if n < 0 then "-" ++ Nat.repr n.natAbs else Nat.repr n.natAbs

/-- Python `str` of an optional `int` as an f-string renders it (`None` otherwise). -/
def pyOptIntStr : Option Int → String
  | none => "None"
  | some n => pyIntStr n

/-- Python `str.join` semantics: `sep.join(parts)`. -/
def pyJoin (sep : String) : List String → String
  | [] => ""
  | [a] => a
  | a :: b :: rest => a ++ sep ++ pyJoin sep (b :: rest)

/-- Number of newline characters in a string. -/
def countNL (s : String) : Nat := s.data.count '\n'

/-- Number of lines of a text, i.e. of newline-separated segments. -/
def lineCount (s : String) : Nat := countNL s + 1

/-- A whitespace character as Python's `str.strip` treats it (ASCII range). -/
def isPyWhitespace (c : Char) : Bool :=
  c == ' ' || c == '\t' || c == '\n' || c == '\r' || c == '\x0b' || c == '\x0c'

/-- Python `str.strip()` with no argument: leading and trailing whitespace
removed. -/
def pyStrip (s : String) : String :=
  String.mk (((s.data.dropWhile isPyWhitespace).reverse.dropWhile isPyWhitespace).reverse)

/-- Keyword arguments of a tool call, as an ordered name/value list. -/
abbrev ToolArgs := List (String × String)

/-- A content block of a model response: a text block, or a tool-invocation
request carrying a correlation id, a tool name and input arguments
(mirrors the `content` blocks of an Anthropic API response). -/
inductive ContentBlock where
  | text (t : String)
  | toolUse (id : String) (name : String) (input : ToolArgs)
deriving DecidableEq

/-- `block.type == "text" and block.text.strip()`: a text block whose text is
non-blank after stripping. -/
def ContentBlock.isNonblankText : ContentBlock → Bool
  | .text t => !(pyStrip t == "")
  | _ => false

/-- `block.type == "tool_use"`. -/
def ContentBlock.isToolUse : ContentBlock → Bool
  | .toolUse _ _ _ => true
  | _ => false

/-- A model-service response: stop reason plus content blocks. -/
structure Response where
  stop_reason : String
  content : List ContentBlock
deriving DecidableEq

/-- `any(block.type == "text" and block.text.strip() for block in response.content)`. -/
def has_nonblank_text (r : Response) : Bool :=
  r.content.any ContentBlock.isNonblankText

/-- `any(block.type == "tool_use" for block in response.content)`. -/
def has_tool_use (r : Response) : Bool :=
  r.content.any ContentBlock.isToolUse

/-- A tool-result block fed back to the model (the dict built in
`AIGenerator._execute_tools`; its `"type"` key is kept as a field). -/
structure ToolResult where
  type_ : String
  tool_use_id : String
  content : String
deriving DecidableEq

/-- The `content` of one conversation message: the plain query string, the
assistant's response blocks, or a list of tool results. -/
inductive MessageContent where
  | text (s : String)
  | blocks (bs : List ContentBlock)
  | toolResults (rs : List ToolResult)
deriving DecidableEq

/-- One entry of the `messages` list sent to the model service. -/
structure ChatMessage where
  role : String
  content : MessageContent
deriving DecidableEq

/-- A tool manager seen from the generator: executing a named tool with
arguments either returns a string or raises (`.error` = Python exception). -/
abbrev ToolExecutor := String → ToolArgs → Except String String

/-- `AIGenerator._should_continue_rounds`, translated clause by clause. -/
def should_continue_rounds (response : Response) (current_round max_rounds : Nat) : Bool :=
  if max_rounds ≤ current_round then false
  else if !(response.stop_reason == "tool_use") then false
  else if has_nonblank_text response && has_tool_use response then false
  else has_tool_use response

/-- The tool-invocation-request blocks of a response, as
(correlation id, tool name, input) triples, in content order. -/
def tool_use_requests (r : Response) : List (String × String × ToolArgs) :=
  r.content.filterMap fun b =>
    match b with
    | .toolUse id name input => some (id, name, input)
    | _ => none

/-- The tool-result block `AIGenerator._execute_tools` builds for one
tool-invocation request: the executor's result, or the caught exception
converted to error text. -/
def toolResultFor (tool_manager : ToolExecutor) (req : String × String × ToolArgs) :
    ToolResult :=
  { type_ := "tool_result"
    tool_use_id := req.1
    content :=
      match tool_manager req.2.1 req.2.2 with
      | .ok r => r
      | .error e => "Tool execution error: " ++ e }

/-- `AIGenerator._execute_tools`: one tool-result per tool-use block, in
content order; `None` when there was no tool-use block. -/
def execute_tools (response : Response) (tool_manager : ToolExecutor) :
    Option (List ToolResult) :=
  let tool_results := response.content.filterMap fun b =>
    match b with
    | .toolUse id name input => some (toolResultFor tool_manager (id, name, input))
    | _ => none
  if tool_results.isEmpty then none else some tool_results

/-- The `execute_tool` invocations `_execute_tools` issues for a response:
one per tool-use block, in content order (used to observe which tools ran). -/
def toolInvocations (r : Response) : List (String × ToolArgs) :=
  r.content.filterMap fun b =>
    match b with
    | .toolUse _ name input => some (name, input)
    | _ => none

/-- State of `generate_response`'s round loop: the running `messages` list,
the log of message lists passed to each model call (one entry per call, in
call order), the log of tool executions, and the Python local `response`
(`none` while still unassigned). -/
structure LoopState where
  messages : List ChatMessage
  callLog : List (List ChatMessage)
  toolCalls : List (String × ToolArgs)
  response : Option Response
deriving DecidableEq

/-- The `if tool_used and tool_manager:` block of `generate_response`:
execute the tools of the round and append the results as one user turn. -/
def applyToolResults (tool_manager : Option ToolExecutor) (response : Response)
    (s : LoopState) : LoopState :=
  match tool_manager with
  | none => s
  | some tm =>
    if response.stop_reason == "tool_use" then
      let s' := { s with toolCalls := s.toolCalls ++ toolInvocations response }
      match execute_tools response tm with
      | some rs =>
        { s' with messages := s'.messages ++ [⟨"user", MessageContent.toolResults rs⟩] }
      | none => s'
    else s

/-- One round's model call and bookkeeping, up to the termination check:
issue the call (the response is `oracle` at the number of calls already
made), log the message list passed to it, append the assistant turn, and
assign the local `response`. -/
def stepState (oracle : Nat → Response) (s : LoopState) : LoopState :=
  { messages := s.messages
      ++ [⟨"assistant", MessageContent.blocks (oracle s.callLog.length).content⟩]
    callLog := s.callLog ++ [s.messages]
    toolCalls := s.toolCalls
    response := some (oracle s.callLog.length) }

/-- The `while current_round < max_rounds` loop of `generate_response`:
`fuel` is `max_rounds - current_round0`, `current_round0` the rounds already
run.  Each iteration increments the round, issues one model call (via
`stepState`), then either stops or folds tool results in and recurses. -/
def runRounds (oracle : Nat → Response) (tool_manager : Option ToolExecutor)
    (max_rounds : Nat) : Nat → Nat → LoopState → LoopState
  | 0, _, s => s
  | fuel + 1, current_round0, s =>
    let current_round := current_round0 + 1
    if should_continue_rounds (oracle s.callLog.length) current_round max_rounds then
      runRounds oracle tool_manager max_rounds fuel current_round
        (applyToolResults tool_manager (oracle s.callLog.length) (stepState oracle s))
    else stepState oracle s

/-- First content block that is a text block with non-blank text, as the
`for` loop of `AIGenerator._extract_final_response` walks the list. -/
def firstNonblankText : List ContentBlock → Option String
  | [] => none
  | ContentBlock.text t :: rest =>
      if pyStrip t == "" then firstNonblankText rest else some t
  | _ :: rest => firstNonblankText rest

/-- The fixed fallback answer of `AIGenerator._extract_final_response`. -/
def fallback_message : String :=
  "I apologize, but I was unable to generate a complete response. Please try rephrasing your question."

/-- `AIGenerator._extract_final_response`. -/
def extract_final_response (response : Response) : String :=
  match firstNonblankText response.content with
  | some t => t
  | none => fallback_message

/-- Errors the embedded `generate_response` can signal; `unboundLocalError`
models Python's `UnboundLocalError` for a local read before assignment. -/
inductive PyError where
  | unboundLocalError (varName : String)
deriving DecidableEq

/-- The `return self._extract_final_response(response)` line: reading the
local `response` raises `UnboundLocalError` when the loop never assigned it. -/
def finish_generate (s : LoopState) : Except PyError String :=
  match s.response with
  | some r => Except.ok (extract_final_response r)
  | none => Except.error (PyError.unboundLocalError "response")

/-- The seed conversation state of `generate_response`: one user turn
holding the query, no calls made, no tools run, local `response` unbound. -/
def initialState (query : String) : LoopState :=
  { messages := [⟨"user", MessageContent.text query⟩]
    callLog := []
    toolCalls := []
    response := none }

/-- `AIGenerator.generate_response`: seeds the message list with the user
query, runs the round loop, and extracts the final text. -/
def generate_response (oracle : Nat → Response) (query : String)
    (tool_manager : Option ToolExecutor) (max_rounds : Nat) :
    LoopState × Except PyError String :=
  let s := runRounds oracle tool_manager max_rounds max_rounds 0 (initialState query)
  (s, finish_generate s)

/-- A citation record tracked in a tool's `last_sources`. -/
structure SourceInfo where
  title : String
  url : Option String
deriving DecidableEq

/-- Metadata of one matched chunk (`meta` dict; `none` = key absent). -/
structure ChunkMeta where
  course_title : Option String
  lesson_number : Option Int
deriving DecidableEq

/-- `vector_store.SearchResults` as the search tool consumes it. -/
structure SearchResults where
  documents : List String
  metadata : List ChunkMeta
  error : Option String
deriving DecidableEq

/-- Modelled from the spec: `SearchResults.is_empty` is defined in
`vector_store.py`, which is outside the core source; the spec describes the
result set as an ordered list of (document text, metadata) pairs, so the
set is empty exactly when that list is. -/
def SearchResults.is_empty (r : SearchResults) : Bool := r.documents.isEmpty

/-- The retrieval-backend operations `CourseSearchTool` consumes
(`VectorStore.search` and `VectorStore.get_lesson_link`). -/
structure VectorStoreModel where
  search : String → Option String → Option Int → SearchResults
  get_lesson_link : String → Int → Option String

/-- `CourseSearchTool._format_results`: the citation list and the formatted
text built from a result set. -/
def format_results (store : VectorStoreModel) (results : SearchResults) :
    List SourceInfo × String :=
  let entries := (results.documents.zip results.metadata).map fun dm =>
    let course_title := dm.2.course_title.getD "unknown"
    let lessonSuffix :=
      match dm.2.lesson_number with
      | some n => " - Lesson " ++ pyIntStr n
      | none => ""
    let header := "[" ++ course_title ++ lessonSuffix ++ "]"
    let source_title := course_title ++ lessonSuffix
    let lesson_url :=
      match dm.2.lesson_number with
      | some n =>
        if !(course_title == "unknown") then store.get_lesson_link course_title n
        else none
      | none => none
    let source_info : SourceInfo :=
      { title := source_title
        url := if strOptTruthy lesson_url then lesson_url else none }
    (source_info, header ++ "\n" ++ dm.1)
  (entries.map Prod.fst, pyJoin "\n\n" (entries.map Prod.snd))

/-- `CourseSearchTool.execute`, with the tool's mutable `last_sources` made
explicit: takes the stored citation list, returns the citation list stored
after the call together with the returned string. -/
def CourseSearchTool.execute (store : VectorStoreModel) (last_sources : List SourceInfo)
    (query : String) (course_name : Option String) (lesson_number : Option Int) :
    List SourceInfo × String :=
  let results := store.search query course_name lesson_number
  if strOptTruthy results.error then
    (last_sources, results.error.getD "")
  else if results.is_empty then
    let filter_info :=
      (if strOptTruthy course_name then
        " in course '" ++ course_name.getD "" ++ "'"
      else "")
      ++
      (if intOptTruthy lesson_number then
        " in lesson " ++ pyIntStr (lesson_number.getD 0)
      else "")
    (last_sources, "No relevant content found" ++ filter_info ++ ".")
  else
    format_results store results

/-- One lesson entry of a course's catalog metadata (`none` = key absent). -/
structure LessonMeta where
  lesson_number : Option Int
  lesson_title : Option String
deriving DecidableEq

/-- One course's catalog metadata record (`none` = key absent). -/
structure CourseMeta where
  title : Option String
  instructor : Option String
  course_link : Option String
  lessons : List LessonMeta
deriving DecidableEq

/-- `CourseOutlineTool._format_outline`, with the tool's `last_sources` made
explicit: returns the stored citation list and the rendered outline text. -/
def format_outline (course_data : CourseMeta) : List SourceInfo × String :=
  let title := course_data.title.getD "Unknown Course"
  let instructor := course_data.instructor.getD "Unknown Instructor"
  let course_link := course_data.course_link
  let lessons := course_data.lessons
  let parts1 := ["**" ++ title ++ "**"]
  let parts2 :=
    if instructor == "" then parts1 else parts1 ++ ["Instructor: " ++ instructor]
  let parts3 :=
    if strOptTruthy course_link then parts2 ++ ["Course Link: " ++ course_link.getD ""]
    else parts2
  let parts4 :=
    if lessons.isEmpty then parts3 ++ ["\nNo lessons found for this course."]
    else
      parts3 ++ ["\nLessons (" ++ Nat.repr lessons.length ++ " total):"]
        ++ lessons.map fun l =>
          "  " ++ pyOptIntStr l.lesson_number ++ ". " ++ l.lesson_title.getD "Untitled"
  let source_info : SourceInfo :=
    { title := title ++ " - Course Outline"
      url := if strOptTruthy course_link then course_link else none }
  ([source_info], pyJoin "\n" parts4)

/-- `ToolManager`: the registry's name → tool map (a Python dict), each tool
reduced to its `execute` (which may raise: `.error`). -/
structure ToolManagerModel where
  tools : String → Option (ToolArgs → Except String String)

/-- `ToolManager.execute_tool`: explicit not-found text for unknown names,
otherwise delegates to the tool, catching nothing. -/
def ToolManagerModel.execute_tool (tm : ToolManagerModel) (tool_name : String)
    (kwargs : ToolArgs) : Except String String :=
  match tm.tools tool_name with
  | none => Except.ok ("Tool '" ++ tool_name ++ "' not found")
  | some ex => ex kwargs

/-- The spec's reading of the final extraction: the first text block of the
response, blank or not (to be compared with `firstNonblankText`, which is
what the source loop computes). -/
def firstTextBlock : List ContentBlock → Option String
  | [] => none
  | ContentBlock.text t :: _ => some t
  | _ :: rest => firstTextBlock rest

/-- The first non-blank text block found via `List.find?`, an independent
formalization of "first text block whose text is non-blank". -/
def specFirstNonblankText (bs : List ContentBlock) : Option String :=
  (bs.find? ContentBlock.isNonblankText).map fun b =>
    match b with
    | ContentBlock.text t => t
    | _ => ""

/-- A response that is tool-use-only in the sense of the spec: stop reason
`tool_use` and no non-blank text block. -/
def toolUseOnly (r : Response) : Prop :=
  r.stop_reason = "tool_use" ∧ has_nonblank_text r = false

/- Concrete instances used by counterexamples and witnesses. -/

/-- A store whose search always returns the empty, error-free result set. -/
def emptySearchStore : VectorStoreModel :=
  { search := fun _ _ _ => { documents := [], metadata := [], error := none }
    get_lesson_link := fun _ _ => none }

/-- A leftover citation from an earlier successful search. -/
def staleSource : SourceInfo := { title := "Old Course - Lesson 1", url := none }

/-- A course record with instructor, link and one lesson. -/
def outlineCourseEx : CourseMeta :=
  { title := some "Course T"
    instructor := some "Alice"
    course_link := some "https://example.com/course"
    lessons := [{ lesson_number := some 1, lesson_title := some "Intro" }] }

/-- An oracle answering every call with a blank text block followed by a
non-blank one. -/
def blankFirstOracle : Nat → Response :=
  fun _ =>
    { stop_reason := "end_turn"
      content := [ContentBlock.text " ", ContentBlock.text "hi"] }

/-- An oracle answering every call with a mixed response: non-blank text
plus a tool-invocation request. -/
def mixedOracle : Nat → Response :=
  fun _ =>
    { stop_reason := "tool_use"
      content :=
        [ContentBlock.text "Let me search",
         ContentBlock.toolUse "call_1" "search_course_content" [("query", "Python")]] }

/-- An oracle answering every call with a tool-use-only response. -/
def toolOnlyOracle : Nat → Response :=
  fun _ =>
    { stop_reason := "tool_use"
      content := [ContentBlock.toolUse "call_1" "search_course_content" [("query", "variable")]] }

/-- A tool executor that always succeeds. -/
def okExecutor : ToolExecutor := fun _ _ => Except.ok "Mock tool result"

/-- A tool whose execution always raises. -/
def failFn : ToolArgs → Except String String := fun _ => Except.error "Tool failed"

/-- A tool executor that always raises. -/
def failExecutor : ToolExecutor := fun _ _ => Except.error "Tool failed"

/-- A registry holding one tool, whose execution always raises. -/
def failRegistry : ToolManagerModel :=
  { tools := fun n => if n == "search_course_content" then some failFn else none }

/-! ## Helper lemmas -/

instance {ε α : Type} [DecidableEq ε] [DecidableEq α] : DecidableEq (Except ε α)
  | Except.ok a, Except.ok b =>
      if h : a = b then isTrue (by rw [h])
      else isFalse (by intro hh; cases hh; exact h rfl)
  | Except.ok _, Except.error _ => isFalse (by intro hh; cases hh)
  | Except.error _, Except.ok _ => isFalse (by intro hh; cases hh)
  | Except.error e, Except.error e' =>
      if h : e = e' then isTrue (by rw [h])
      else isFalse (by intro hh; cases hh; exact h rfl)

theorem applyToolResults_callLog (tm : Option ToolExecutor) (r : Response) (s : LoopState) :
    (applyToolResults tm r s).callLog = s.callLog := by
  unfold applyToolResults
  cases tm with
  | none => rfl
  | some f =>
    dsimp only
    split
    · split <;> rfl
    · rfl

theorem applyToolResults_response (tm : Option ToolExecutor) (r : Response) (s : LoopState) :
    (applyToolResults tm r s).response = s.response := by
  unfold applyToolResults
  cases tm with
  | none => rfl
  | some f =>
    dsimp only
    split
    · split <;> rfl
    · rfl

theorem runRounds_succ (oracle : Nat → Response) (tm : Option ToolExecutor)
    (mr fuel cr0 : Nat) (s : LoopState) :
    runRounds oracle tm mr (fuel + 1) cr0 s
      = if should_continue_rounds (oracle s.callLog.length) (cr0 + 1) mr then
          runRounds oracle tm mr fuel (cr0 + 1)
            (applyToolResults tm (oracle s.callLog.length) (stepState oracle s))
        else stepState oracle s := rfl

theorem stepState_callLog_length (oracle : Nat → Response) (s : LoopState) :
    (stepState oracle s).callLog.length = s.callLog.length + 1 := by
  simp [stepState]

theorem should_continue_true_elim {r : Response} {cr mr : Nat}
    (h : should_continue_rounds r cr mr = true) :
    cr < mr ∧ r.stop_reason = "tool_use" ∧ has_nonblank_text r = false
      ∧ has_tool_use r = true := by
  unfold should_continue_rounds at h
  split at h
  · cases h
  · split at h
    · cases h
    · split at h
      · cases h
      · rename_i hc1 hc2 hc3
        refine ⟨by omega, ?_, ?_, h⟩
        · simpa using hc2
        · simpa [h] using hc3

theorem should_continue_false_of_mixed (r : Response) (cr mr : Nat)
    (ht : has_nonblank_text r = true) (hu : has_tool_use r = true) :
    should_continue_rounds r cr mr = false := by
  unfold should_continue_rounds
  split
  · rfl
  · split
    · rfl
    · rw [ht, hu]
      simp

theorem runRounds_callLog_le (oracle : Nat → Response) (tm : Option ToolExecutor)
    (mr : Nat) :
    ∀ fuel cr0 s, ((runRounds oracle tm mr fuel cr0 s).callLog).length
      ≤ s.callLog.length + fuel := by
  intro fuel
  induction fuel with
  | zero =>
    intro cr0 s
    rw [runRounds]
    omega
  | succ f ih =>
    intro cr0 s
    rw [runRounds_succ]
    split
    · have h1 := ih (cr0 + 1) (applyToolResults tm (oracle s.callLog.length) (stepState oracle s))
      rw [applyToolResults_callLog, stepState_callLog_length] at h1
      omega
    · rw [stepState_callLog_length]
      omega

theorem runRounds_exact_calls (oracle : Nat → Response) (tm : Option ToolExecutor)
    (mr : Nat) :
    ∀ fuel cr0 s,
      ((runRounds oracle tm mr fuel cr0 s).callLog).length = s.callLog.length + fuel →
      ∀ j, j + 1 < fuel →
        (oracle (s.callLog.length + j)).stop_reason = "tool_use"
          ∧ has_nonblank_text (oracle (s.callLog.length + j)) = false := by
  intro fuel
  induction fuel with
  | zero =>
    intro cr0 s h j hj
    omega
  | succ f ih =>
    intro cr0 s h j hj
    rw [runRounds_succ] at h
    by_cases hc : should_continue_rounds (oracle s.callLog.length) (cr0 + 1) mr = true
    · rw [if_pos hc] at h
      obtain ⟨_, hstop, htext, _⟩ := should_continue_true_elim hc
      cases j with
      | zero => exact ⟨hstop, htext⟩
      | succ j' =>
        have hlen : (applyToolResults tm (oracle s.callLog.length)
            (stepState oracle s)).callLog.length = s.callLog.length + 1 := by
          rw [applyToolResults_callLog, stepState_callLog_length]
        have h' := ih (cr0 + 1)
          (applyToolResults tm (oracle s.callLog.length) (stepState oracle s))
          (by rw [h, hlen]; omega) j' (by omega)
        rw [hlen] at h'
        have harith : s.callLog.length + 1 + j' = s.callLog.length + (j' + 1) := by omega
        rw [harith] at h'
        exact h'
    · rw [if_neg hc] at h
      rw [stepState_callLog_length] at h
      omega

/-! ## C1 -/

/-- C1: `generate_response` with round budget N ≥ 1 issues at most N model
calls, and issues exactly N only if each of the first N − 1 responses had
stop reason `tool_use` and no non-blank text block. -/
theorem c1_round_budget_call_bound (oracle : Nat → Response)
    (tool_manager : Option ToolExecutor) (query : String) (max_rounds : Nat)
    (hN : 1 ≤ max_rounds) :
    ((generate_response oracle query tool_manager max_rounds).1.callLog).length ≤ max_rounds
      ∧ (((generate_response oracle query tool_manager max_rounds).1.callLog).length
            = max_rounds →
          ∀ j, j + 1 < max_rounds →
            (oracle j).stop_reason = "tool_use"
              ∧ has_nonblank_text (oracle j) = false) := by
  unfold generate_response
  dsimp only
  constructor
  · have h := runRounds_callLog_le oracle tool_manager max_rounds max_rounds 0
      (initialState query)
    simpa [initialState] using h
  · intro h j hj
    have h' := runRounds_exact_calls oracle tool_manager max_rounds max_rounds 0
      (initialState query) (by simpa [initialState] using h) j hj
    simpa [initialState] using h'

theorem c1_witness :
    ((generate_response blankFirstOracle "q" none 2).1.callLog).length ≤ 2
      ∧ (((generate_response blankFirstOracle "q" none 2).1.callLog).length = 2 →
          ∀ j, j + 1 < 2 →
            (blankFirstOracle j).stop_reason = "tool_use"
              ∧ has_nonblank_text (blankFirstOracle j) = false) :=
  c1_round_budget_call_bound blankFirstOracle none "q" 2 (by decide)

/-! ## C2 -/

theorem firstNonblankText_some {bs : List ContentBlock}
    (h : bs.any ContentBlock.isNonblankText = true) :
    ∃ t, firstNonblankText bs = some t := by
  induction bs with
  | nil => cases h
  | cons b rest ih =>
    cases b with
    | text t =>
      by_cases hb : (pyStrip t == "") = true
      · have hrest : rest.any ContentBlock.isNonblankText = true := by
          simpa [ContentBlock.isNonblankText, hb] using h
        obtain ⟨u, hu⟩ := ih hrest
        exact ⟨u, by simp [firstNonblankText, hb, hu]⟩
      · exact ⟨t, by simp [firstNonblankText, hb]⟩
    | toolUse id name input =>
      have hrest : rest.any ContentBlock.isNonblankText = true := by
        simpa [ContentBlock.isNonblankText] using h
      obtain ⟨u, hu⟩ := ih hrest
      exact ⟨u, by simp [firstNonblankText, hu]⟩

theorem extract_of_firstNonblankText {r : Response} {t : String}
    (h : firstNonblankText r.content = some t) :
    extract_final_response r = t := by
  unfold extract_final_response
  rw [h]

/-- C2: whenever the model call of a round returns a response holding both
a non-blank text block and a tool-invocation request, the loop terminates
right after that round — the call log grows by exactly that one call, no
tool is executed for the round — and the generated answer is that
response's first non-blank text. -/
theorem c2_mixed_response_terminates (oracle : Nat → Response)
    (tool_manager : Option ToolExecutor) (max_rounds fuel cr0 : Nat) (s : LoopState)
    (ht : has_nonblank_text (oracle s.callLog.length) = true)
    (hu : has_tool_use (oracle s.callLog.length) = true) :
    (runRounds oracle tool_manager max_rounds (fuel + 1) cr0 s).callLog
        = s.callLog ++ [s.messages]
      ∧ (runRounds oracle tool_manager max_rounds (fuel + 1) cr0 s).toolCalls = s.toolCalls
      ∧ (runRounds oracle tool_manager max_rounds (fuel + 1) cr0 s).response
          = some (oracle s.callLog.length)
      ∧ ∃ t, firstNonblankText (oracle s.callLog.length).content = some t
          ∧ finish_generate (runRounds oracle tool_manager max_rounds (fuel + 1) cr0 s)
              = Except.ok t := by
  have hsc := should_continue_false_of_mixed (oracle s.callLog.length) (cr0 + 1)
    max_rounds ht hu
  rw [runRounds_succ, hsc]
  simp only [Bool.false_eq_true, if_false, ite_false]
  obtain ⟨t, htfirst⟩ := @firstNonblankText_some ((oracle s.callLog.length).content) ht
  refine ⟨by simp [stepState], by simp [stepState], by simp [stepState], t, htfirst, ?_⟩
  have hresp : (stepState oracle s).response = some (oracle s.callLog.length) := by
    simp [stepState]
  unfold finish_generate
  rw [hresp]
  exact congrArg Except.ok (extract_of_firstNonblankText htfirst)

theorem c2_witness :
    (runRounds mixedOracle none 2 2 0 (initialState "q")).callLog
        = (initialState "q").callLog ++ [(initialState "q").messages]
      ∧ (runRounds mixedOracle none 2 2 0 (initialState "q")).toolCalls
          = (initialState "q").toolCalls
      ∧ (runRounds mixedOracle none 2 2 0 (initialState "q")).response
          = some (mixedOracle ((initialState "q").callLog.length))
      ∧ ∃ t, firstNonblankText (mixedOracle ((initialState "q").callLog.length)).content
            = some t
          ∧ finish_generate (runRounds mixedOracle none 2 2 0 (initialState "q"))
              = Except.ok t :=
  c2_mixed_response_terminates mixedOracle none 2 1 0 (initialState "q")
    (by decide) (by decide)

/-! ## C9 -/

/-- C9: with round budget 0 the loop body never runs, so `generate_response`
issues no model-service call and, instead of returning a text answer or the
fallback, fails reading the never-assigned local `response`
(`UnboundLocalError`). -/
theorem c9_zero_budget_unbound_local (oracle : Nat → Response)
    (tool_manager : Option ToolExecutor) (query : String) :
    (generate_response oracle query tool_manager 0).2
        = Except.error (PyError.unboundLocalError "response")
      ∧ ((generate_response oracle query tool_manager 0).1.callLog).length = 0 :=
  ⟨rfl, rfl⟩

/-! ## C4 -/

/-- C4 counterexample: the last response's first text block is the blank
`" "`, yet `generate_response` returns `"hi"` (the first NON-blank text
block), not the first text block's text. -/
theorem c4_counterexample :
    (generate_response blankFirstOracle "q" none 1).2 = Except.ok "hi"
      ∧ firstTextBlock (blankFirstOracle 0).content = some " "
      ∧ ¬ (("hi" : String) = " ") :=
  ⟨by decide, rfl, by decide⟩

/-! ## C4, amended -/

theorem runRounds_response_some (oracle : Nat → Response) (tm : Option ToolExecutor)
    (mr : Nat) :
    ∀ fuel cr0 s, 1 ≤ fuel ∨ (∃ r0 : Response, s.response = some r0) →
      ∃ r, (runRounds oracle tm mr fuel cr0 s).response = some r := by
  intro fuel
  induction fuel with
  | zero =>
    intro cr0 s h
    rcases h with h | ⟨r0, hr⟩
    · omega
    · exact ⟨r0, by rw [runRounds]; exact hr⟩
  | succ f ih =>
    intro cr0 s _
    rw [runRounds_succ]
    split
    · apply ih
      by_cases hf : 1 ≤ f
      · exact Or.inl hf
      · refine Or.inr ⟨oracle s.callLog.length, ?_⟩
        rw [applyToolResults_response]
        simp [stepState]
    · exact ⟨oracle s.callLog.length, by simp [stepState]⟩

theorem firstNonblankText_eq_spec (bs : List ContentBlock) :
    firstNonblankText bs = specFirstNonblankText bs := by
  induction bs with
  | nil => rfl
  | cons b rest ih =>
    cases b with
    | text t =>
      by_cases hb : (pyStrip t == "") = true
      · simp [firstNonblankText, specFirstNonblankText, List.find?,
          ContentBlock.isNonblankText, hb, ih, specFirstNonblankText]
      · simp [firstNonblankText, specFirstNonblankText, List.find?,
          ContentBlock.isNonblankText, hb]
    | toolUse id name input =>
      simp [firstNonblankText, specFirstNonblankText, List.find?,
        ContentBlock.isToolUse, ContentBlock.isNonblankText, ih]

/-- C4 amended: every call of `generate_response` with round budget ≥ 1
terminates with `Except.ok` (never an exception), returning the text of the
first content block of the last produced response that is a text block with
non-blank text — blank text blocks are skipped — and the fixed fallback
message when the response holds no such block. -/
theorem c4_extracts_first_nonblank (oracle : Nat → Response)
    (tool_manager : Option ToolExecutor) (query : String) (max_rounds : Nat)
    (hN : 1 ≤ max_rounds) :
    ∃ r, (generate_response oracle query tool_manager max_rounds).1.response = some r
      ∧ (generate_response oracle query tool_manager max_rounds).2
          = Except.ok ((specFirstNonblankText r.content).getD fallback_message) := by
  unfold generate_response
  dsimp only
  obtain ⟨r, hr⟩ := runRounds_response_some oracle tool_manager max_rounds max_rounds 0
    (initialState query) (Or.inl hN)
  refine ⟨r, hr, ?_⟩
  unfold finish_generate
  rw [hr]
  have hext : extract_final_response r
      = (specFirstNonblankText r.content).getD fallback_message := by
    unfold extract_final_response
    rw [firstNonblankText_eq_spec]
    cases specFirstNonblankText r.content <;> rfl
  exact congrArg Except.ok hext

theorem c4_witness :
    ∃ r, (generate_response blankFirstOracle "q" none 1).1.response = some r
      ∧ (generate_response blankFirstOracle "q" none 1).2
          = Except.ok ((specFirstNonblankText r.content).getD fallback_message) :=
  c4_extracts_first_nonblank blankFirstOracle none "q" 1 (by decide)

/-! ## C3 -/

theorem filterMap_toolResult_eq (tm : ToolExecutor) (bs : List ContentBlock) :
    (bs.filterMap fun b =>
        match b with
        | ContentBlock.toolUse id name input => some (toolResultFor tm (id, name, input))
        | _ => none)
      = ((bs.filterMap fun b =>
          match b with
          | ContentBlock.toolUse id name input => some (id, name, input)
          | _ => none).map (toolResultFor tm)) := by
  induction bs with
  | nil => rfl
  | cons b rest ih => cases b <;> simp [List.filterMap_cons, ih]

theorem execute_tools_eq (r : Response) (tm : ToolExecutor) :
    execute_tools r tm
      = if (tool_use_requests r).isEmpty then none
        else some ((tool_use_requests r).map (toolResultFor tm)) := by
  unfold execute_tools tool_use_requests
  rw [filterMap_toolResult_eq]
  rcases hbs : (r.content.filterMap fun b =>
      match b with
      | ContentBlock.toolUse id name input => some (id, name, input)
      | _ => none) with _ | ⟨a, rest⟩ <;> simp

theorem any_toolUse_iff (bs : List ContentBlock) :
    bs.any ContentBlock.isToolUse = true
      ↔ ((bs.filterMap fun b =>
          match b with
          | ContentBlock.toolUse id name input => some (id, name, input)
          | _ => none).isEmpty = false) := by
  induction bs with
  | nil => simp
  | cons b rest ih =>
    cases b <;> simp [ContentBlock.isToolUse, List.filterMap_cons, ih]

theorem execute_tools_some_of_continue {r : Response} (tm : ToolExecutor)
    (htools : has_tool_use r = true) :
    execute_tools r tm = some ((tool_use_requests r).map (toolResultFor tm)) := by
  have hne : (tool_use_requests r).isEmpty = false := (any_toolUse_iff r.content).mp htools
  rw [execute_tools_eq, hne]
  simp

theorem runRounds_continue_step (oracle : Nat → Response) (tm : ToolExecutor)
    (mr fuel cr0 : Nat) (s : LoopState)
    (hc : should_continue_rounds (oracle s.callLog.length) (cr0 + 1) mr = true) :
    runRounds oracle (some tm) mr (fuel + 1) cr0 s
      = runRounds oracle (some tm) mr fuel (cr0 + 1)
          { messages := s.messages
              ++ [⟨"assistant", MessageContent.blocks (oracle s.callLog.length).content⟩,
                  ⟨"user", MessageContent.toolResults
                    ((tool_use_requests (oracle s.callLog.length)).map (toolResultFor tm))⟩]
            callLog := s.callLog ++ [s.messages]
            toolCalls := s.toolCalls ++ toolInvocations (oracle s.callLog.length)
            response := some (oracle s.callLog.length) } := by
  obtain ⟨hcr, hstop, htext, htools⟩ := should_continue_true_elim hc
  have hex := execute_tools_some_of_continue tm htools
  rw [runRounds_succ, if_pos hc]
  have happ : applyToolResults (some tm) (oracle s.callLog.length) (stepState oracle s)
      = { messages := s.messages
            ++ [⟨"assistant", MessageContent.blocks (oracle s.callLog.length).content⟩,
                ⟨"user", MessageContent.toolResults
                  ((tool_use_requests (oracle s.callLog.length)).map (toolResultFor tm))⟩]
          callLog := s.callLog ++ [s.messages]
          toolCalls := s.toolCalls ++ toolInvocations (oracle s.callLog.length)
          response := some (oracle s.callLog.length) } := by
    unfold applyToolResults
    have hbeq : ((oracle s.callLog.length).stop_reason == "tool_use") = true := by
      simp [hstop]
    simp only [hbeq, if_true, ite_true, hex]
    simp [stepState]
  rw [happ]

/-- C3: in a round that continues, `_execute_tools` answers each
tool-invocation-request block with exactly one tool-result whose
correlation id is that request's id, in request order, and the loop appends
those results as one user turn before the next round's model call. -/
theorem c3_tool_results_correlated (oracle : Nat → Response) (tm : ToolExecutor)
    (max_rounds fuel cr0 : Nat) (s : LoopState)
    (hc : should_continue_rounds (oracle s.callLog.length) (cr0 + 1) max_rounds = true) :
    execute_tools (oracle s.callLog.length) tm
        = some ((tool_use_requests (oracle s.callLog.length)).map (toolResultFor tm))
      ∧ ((tool_use_requests (oracle s.callLog.length)).map (toolResultFor tm)).map
            ToolResult.tool_use_id
          = (tool_use_requests (oracle s.callLog.length)).map (fun req => req.1)
      ∧ runRounds oracle (some tm) max_rounds (fuel + 1) cr0 s
          = runRounds oracle (some tm) max_rounds fuel (cr0 + 1)
              { messages := s.messages
                  ++ [⟨"assistant",
                        MessageContent.blocks (oracle s.callLog.length).content⟩,
                      ⟨"user", MessageContent.toolResults
                        ((tool_use_requests (oracle s.callLog.length)).map
                          (toolResultFor tm))⟩]
                callLog := s.callLog ++ [s.messages]
                toolCalls := s.toolCalls ++ toolInvocations (oracle s.callLog.length)
                response := some (oracle s.callLog.length) } := by
  obtain ⟨hcr, hstop, htext, htools⟩ := should_continue_true_elim hc
  refine ⟨execute_tools_some_of_continue tm htools, ?_,
    runRounds_continue_step oracle tm max_rounds fuel cr0 s hc⟩
  rw [List.map_map]
  rfl

theorem c3_witness :
    execute_tools (toolOnlyOracle ((initialState "q").callLog.length)) okExecutor
        = some ((tool_use_requests (toolOnlyOracle ((initialState "q").callLog.length))).map
            (toolResultFor okExecutor))
      ∧ ((tool_use_requests (toolOnlyOracle ((initialState "q").callLog.length))).map
            (toolResultFor okExecutor)).map ToolResult.tool_use_id
          = (tool_use_requests (toolOnlyOracle ((initialState "q").callLog.length))).map
              (fun req => req.1)
      ∧ runRounds toolOnlyOracle (some okExecutor) 2 2 0 (initialState "q")
          = runRounds toolOnlyOracle (some okExecutor) 2 1 1
              { messages := (initialState "q").messages
                  ++ [⟨"assistant", MessageContent.blocks
                        (toolOnlyOracle ((initialState "q").callLog.length)).content⟩,
                      ⟨"user", MessageContent.toolResults
                        ((tool_use_requests
                            (toolOnlyOracle ((initialState "q").callLog.length))).map
                          (toolResultFor okExecutor))⟩]
                callLog := (initialState "q").callLog ++ [(initialState "q").messages]
                toolCalls := (initialState "q").toolCalls
                  ++ toolInvocations (toolOnlyOracle ((initialState "q").callLog.length))
                response := some (toolOnlyOracle ((initialState "q").callLog.length)) } :=
  c3_tool_results_correlated toolOnlyOracle okExecutor 2 1 0 (initialState "q") (by decide)

/-! ## C6 -/

/-- C6: when a tool-use-only first response carries a request whose tool
raises, the exception does not propagate: the failure is converted into a
tool-result whose content carries the exception's literal description, the
round completes, and the next round's model call still occurs — with
budget 2 the call count reaches 2 and the second call's input holds that
tool-result. -/
theorem c6_tool_error_converted (oracle : Nat → Response) (tm : ToolExecutor)
    (query id name : String) (input : ToolArgs) (e : String)
    (h1 : (oracle 0).stop_reason = "tool_use")
    (h2 : has_nonblank_text (oracle 0) = false)
    (h3 : ContentBlock.toolUse id name input ∈ (oracle 0).content)
    (h4 : tm name input = Except.error e) :
    ((generate_response oracle query (some tm) 2).1.callLog).length = 2
      ∧ ∃ msgs, (generate_response oracle query (some tm) 2).1.callLog.get? 1 = some msgs
          ∧ ∃ rs, ChatMessage.mk "user" (MessageContent.toolResults rs) ∈ msgs
              ∧ ∃ tr, tr ∈ rs ∧ tr.tool_use_id = id
                  ∧ tr.content = "Tool execution error: " ++ e := by
  have htools : has_tool_use (oracle 0) = true := by
    unfold has_tool_use
    rw [List.any_eq_true]
    exact ⟨ContentBlock.toolUse id name input, h3, rfl⟩
  have hc : should_continue_rounds (oracle 0) (0 + 1) 2 = true := by
    unfold should_continue_rounds
    rw [if_neg (by omega)]
    have hbeq : ((oracle 0).stop_reason == "tool_use") = true := by
      simp [h1]
    rw [hbeq]
    simp [h2, htools]
  have hstop : ∀ (r : Response) (cr : Nat), 2 ≤ cr →
      should_continue_rounds r cr 2 = false := by
    intro r cr hcr
    unfold should_continue_rounds
    rw [if_pos hcr]
  unfold generate_response
  dsimp only
  have step1 : runRounds oracle (some tm) 2 2 0 (initialState query)
      = runRounds oracle (some tm) 2 1 1
          { messages := [⟨"user", MessageContent.text query⟩,
              ⟨"assistant", MessageContent.blocks (oracle 0).content⟩,
              ⟨"user", MessageContent.toolResults
                ((tool_use_requests (oracle 0)).map (toolResultFor tm))⟩]
            callLog := [[⟨"user", MessageContent.text query⟩]]
            toolCalls := toolInvocations (oracle 0)
            response := some (oracle 0) } :=
    runRounds_continue_step oracle tm 2 1 0 (initialState query) hc
  have step2 : runRounds oracle (some tm) 2 1 1
      { messages := [⟨"user", MessageContent.text query⟩,
          ⟨"assistant", MessageContent.blocks (oracle 0).content⟩,
          ⟨"user", MessageContent.toolResults
            ((tool_use_requests (oracle 0)).map (toolResultFor tm))⟩]
        callLog := [[⟨"user", MessageContent.text query⟩]]
        toolCalls := toolInvocations (oracle 0)
        response := some (oracle 0) }
      = stepState oracle
          { messages := [⟨"user", MessageContent.text query⟩,
              ⟨"assistant", MessageContent.blocks (oracle 0).content⟩,
              ⟨"user", MessageContent.toolResults
                ((tool_use_requests (oracle 0)).map (toolResultFor tm))⟩]
            callLog := [[⟨"user", MessageContent.text query⟩]]
            toolCalls := toolInvocations (oracle 0)
            response := some (oracle 0) } := by
    have h := runRounds_succ oracle (some tm) 2 0 1
      { messages := [⟨"user", MessageContent.text query⟩,
          ⟨"assistant", MessageContent.blocks (oracle 0).content⟩,
          ⟨"user", MessageContent.toolResults
            ((tool_use_requests (oracle 0)).map (toolResultFor tm))⟩]
        callLog := [[⟨"user", MessageContent.text query⟩]]
        toolCalls := toolInvocations (oracle 0)
        response := some (oracle 0) }
    rw [hstop _ (1 + 1) (by omega)] at h
    simpa using h
  rw [step1, step2]
  have hreq : (id, name, input) ∈ tool_use_requests (oracle 0) := by
    unfold tool_use_requests
    rw [List.mem_filterMap]
    exact ⟨ContentBlock.toolUse id name input, h3, rfl⟩
  have htr : toolResultFor tm (id, name, input)
      ∈ (tool_use_requests (oracle 0)).map (toolResultFor tm) :=
    List.mem_map.mpr ⟨(id, name, input), hreq, rfl⟩
  refine ⟨by simp [stepState], ?_⟩
  refine ⟨[⟨"user", MessageContent.text query⟩,
      ⟨"assistant", MessageContent.blocks (oracle 0).content⟩,
      ⟨"user", MessageContent.toolResults
        ((tool_use_requests (oracle 0)).map (toolResultFor tm))⟩], by simp [stepState], ?_⟩
  refine ⟨(tool_use_requests (oracle 0)).map (toolResultFor tm), by simp, ?_⟩
  refine ⟨toolResultFor tm (id, name, input), htr, rfl, ?_⟩
  unfold toolResultFor
  rw [h4]

theorem c6_witness :
    ((generate_response toolOnlyOracle "q" (some failExecutor) 2).1.callLog).length = 2
      ∧ ∃ msgs, (generate_response toolOnlyOracle "q"
            (some failExecutor) 2).1.callLog.get? 1 = some msgs
          ∧ ∃ rs, ChatMessage.mk "user" (MessageContent.toolResults rs) ∈ msgs
              ∧ ∃ tr, tr ∈ rs ∧ tr.tool_use_id = "call_1"
                  ∧ tr.content = "Tool execution error: " ++ "Tool failed" :=
  c6_tool_error_converted toolOnlyOracle failExecutor "q" "call_1"
    "search_course_content" [("query", "variable")] "Tool failed"
    (by decide) (by decide) (by decide) rfl

/-! ## C5 -/

/-- C5 counterexample: a call whose search finds no passages leaves the
previously stored citation list in place instead of replacing it by the
empty list. -/
theorem c5_counterexample :
    (CourseSearchTool.execute emptySearchStore [staleSource] "q" none none).1
        = [staleSource]
      ∧ ¬ ([staleSource] = ([] : List SourceInfo)) :=
  ⟨rfl, by decide⟩

/-- C5 amended: `execute` replaces the stored citation list (by the list
built for this call) only when the search returns an error-free, non-empty
result set; on an error or an empty result set the stored list is left
unchanged, so it can still reflect an earlier call. -/
theorem c5_sources_replaced_only_on_success (store : VectorStoreModel)
    (last_sources : List SourceInfo) (query : String)
    (course_name : Option String) (lesson_number : Option Int) :
    ((strOptTruthy (store.search query course_name lesson_number).error = true
        ∨ (store.search query course_name lesson_number).is_empty = true) →
      (CourseSearchTool.execute store last_sources query course_name lesson_number).1
        = last_sources)
      ∧ (strOptTruthy (store.search query course_name lesson_number).error = false →
          (store.search query course_name lesson_number).is_empty = false →
          (CourseSearchTool.execute store last_sources query course_name lesson_number).1
            = (format_results store (store.search query course_name lesson_number)).1) := by
  unfold CourseSearchTool.execute
  constructor
  · rintro (h | h)
    · simp [h]
    · by_cases he : strOptTruthy (store.search query course_name lesson_number).error
      · simp [he]
      · simp [he, h]
  · intro h1 h2
    simp [h1, h2]

theorem c5_witness :
    (CourseSearchTool.execute emptySearchStore [staleSource] "q" none none).1
      = [staleSource] :=
  (c5_sources_replaced_only_on_success emptySearchStore [staleSource] "q" none none).1
    (Or.inr rfl)

/-! ## C7 -/

/-- C7 counterexample: for a record with instructor, link and one lesson the
outline text has 6 lines (the lesson-count header carries a leading newline,
adding a blank line), not the claimed 1 + 1 + 1 + 1 + 1 = 5. -/
theorem c7_counterexample :
    lineCount (format_outline outlineCourseEx).2 = 6
      ∧ ¬ ((6 : Nat) = 1 + 1 + 1 + 1 + 1) :=
  ⟨by decide, by decide⟩

/-! ## Counting lines -/

theorem countNL_append (a b : String) : countNL (a ++ b) = countNL a + countNL b := by
  unfold countNL
  rw [String.data_append, List.count_append]

theorem countNL_pyJoin (parts : List String) (p : String) :
    countNL (pyJoin "\n" (p :: parts))
      = countNL p + ((parts.map countNL).sum + parts.length) := by
  induction parts generalizing p with
  | nil => simp [pyJoin]
  | cons q rest ih =>
    rw [pyJoin, countNL_append, countNL_append, ih q]
    have h1 : countNL "\n" = 1 := rfl
    simp [h1]
    omega

theorem digitChar_ne_nl (n : Nat) (h : n < 10) : ¬ (Nat.digitChar n = '\n') := by
  interval_cases n <;> decide

theorem toDigitsCore_ne_nl :
    ∀ (fuel n : Nat) (acc : List Char),
      (∀ c ∈ acc, ¬ (c = '\n')) →
      ∀ c ∈ Nat.toDigitsCore 10 fuel n acc, ¬ (c = '\n') := by
  intro fuel
  induction fuel with
  | zero =>
    intro n acc hacc c hc
    exact hacc c hc
  | succ f ih =>
    intro n acc hacc c hc
    rw [Nat.toDigitsCore] at hc
    by_cases h0 : n / 10 = 0
    · rw [if_pos h0] at hc
      rcases List.mem_cons.mp hc with h | h
      · rw [h]
        exact digitChar_ne_nl (n % 10) (Nat.mod_lt n (by omega))
      · exact hacc c h
    · rw [if_neg h0] at hc
      refine ih (n / 10) (Nat.digitChar (n % 10) :: acc) ?_ c hc
      intro d hd
      rcases List.mem_cons.mp hd with h | h
      · rw [h]
        exact digitChar_ne_nl (n % 10) (Nat.mod_lt n (by omega))
      · exact hacc d h

theorem countNL_natRepr (n : Nat) : countNL (Nat.repr n) = 0 := by
  unfold countNL
  rw [List.count_eq_zero]
  intro h
  have hd : (Nat.repr n).data = Nat.toDigitsCore 10 (n + 1) n [] := rfl
  rw [hd] at h
  exact toDigitsCore_ne_nl (n + 1) n [] (by simp) '\n' h rfl

theorem countNL_pyIntStr (i : Int) : countNL (pyIntStr i) = 0 := by
  unfold pyIntStr
  split
  · rw [countNL_append, countNL_natRepr]
    decide
  · exact countNL_natRepr i.natAbs

theorem countNL_pyOptIntStr (o : Option Int) : countNL (pyOptIntStr o) = 0 := by
  cases o with
  | none => rfl
  | some i => exact countNL_pyIntStr i

theorem sum_map_lineCount (rest : List String) :
    (rest.map lineCount).sum = (rest.map countNL).sum + rest.length := by
  induction rest with
  | nil => rfl
  | cons a t ih =>
    simp only [List.map_cons, List.sum_cons, List.length_cons, ih, lineCount]
    omega

theorem lineCount_pyJoin (p : String) (parts : List String) :
    lineCount (pyJoin "\n" (p :: parts)) = ((p :: parts).map lineCount).sum := by
  simp only [List.map_cons, List.sum_cons, sum_map_lineCount, lineCount]
  rw [countNL_pyJoin]
  omega

theorem sum_map_ones {α : Type} (L : List α) (g : α → Nat) (h : ∀ x ∈ L, g x = 1) :
    (L.map g).sum = L.length := by
  induction L with
  | nil => rfl
  | cons a t ih =>
    simp only [List.map_cons, List.sum_cons, List.length_cons,
      h a (List.mem_cons_self a t), ih fun x hx => h x (List.mem_cons_of_mem a hx)]
    omega

/-! ## C7, amended -/

/-- C7 amended: for every course record whose rendered fields contain no
newline of their own, the outline's line count is 1 (title) + 1 for the
instructor line whenever the rendered instructor value is non-empty (a
record without an instructor renders the default, so the line is present
then too) + 1 if a course link is present + 2 (the lesson-count header
carries a leading newline, so it contributes a blank line and the header
line; with zero lessons the explicit no-lessons line does the same) + the
number of lessons. -/
theorem c7_outline_line_count (c : CourseMeta)
    (h1 : countNL (c.title.getD "Unknown Course") = 0)
    (h2 : countNL (c.instructor.getD "Unknown Instructor") = 0)
    (h3 : countNL (c.course_link.getD "") = 0)
    (h4 : ∀ l ∈ c.lessons, countNL (l.lesson_title.getD "Untitled") = 0) :
    lineCount (format_outline c).2
      = 1 + (if c.instructor.getD "Unknown Instructor" = "" then 0 else 1)
          + (if strOptTruthy c.course_link = true then 1 else 0)
          + 2 + c.lessons.length := by
  have hT : lineCount ("**" ++ c.title.getD "Unknown Course" ++ "**") = 1 := by
    unfold lineCount
    rw [countNL_append, countNL_append, h1]
    rfl
  have hI : lineCount ("Instructor: " ++ c.instructor.getD "Unknown Instructor") = 1 := by
    unfold lineCount
    rw [countNL_append, h2]
    rfl
  have hL : lineCount ("Course Link: " ++ c.course_link.getD "") = 1 := by
    unfold lineCount
    rw [countNL_append, h3]
    rfl
  have hH : ∀ k : Nat, lineCount ("\nLessons (" ++ Nat.repr k ++ " total):") = 2 := by
    intro k
    unfold lineCount
    rw [countNL_append, countNL_append, countNL_natRepr]
    rfl
  have hN : lineCount "\nNo lessons found for this course." = 2 := rfl
  have hLessonSum : ((c.lessons.map fun l =>
      "  " ++ pyOptIntStr l.lesson_number ++ ". " ++ l.lesson_title.getD "Untitled").map
        lineCount).sum = c.lessons.length := by
    rw [List.map_map]
    refine sum_map_ones c.lessons _ fun l hl => ?_
    simp only [Function.comp]
    unfold lineCount
    rw [countNL_append, countNL_append, countNL_append, countNL_pyOptIntStr, h4 l hl]
    rfl
  unfold format_outline
  by_cases hi : c.instructor.getD "Unknown Instructor" = "" <;>
    by_cases hl : strOptTruthy c.course_link = true <;>
      rcases hles : c.lessons with _ | ⟨l0, ls⟩ <;>
        (rw [hles] at hLessonSum
         simp only [hles, hi, hl, beq_iff_eq, List.isEmpty_nil, List.isEmpty_cons,
           eq_self_iff_true, not_true, not_false_iff, Bool.false_eq_true, Bool.true_eq_false,
           if_true, if_false, ite_true, ite_false, List.nil_append, List.cons_append,
           List.append_nil, List.singleton_append]
         rw [lineCount_pyJoin]
         simp only [List.map_cons, List.map_nil, List.map_append, List.sum_cons,
           List.sum_nil, List.sum_append, hT, hI, hL, hH, hN, List.length_nil,
           List.length_cons]
         simp only [List.map_cons, List.map_nil, List.sum_cons, List.sum_nil,
           List.length_cons, List.length_nil] at hLessonSum
         omega)

theorem c7_witness :
    lineCount (format_outline outlineCourseEx).2
      = 1 + (if outlineCourseEx.instructor.getD "Unknown Instructor" = "" then 0 else 1)
          + (if strOptTruthy outlineCourseEx.course_link = true then 1 else 0)
          + 2 + outlineCourseEx.lessons.length :=
  c7_outline_line_count outlineCourseEx (by decide) (by decide) (by decide) (by decide)

/-! ## C8 -/

/-- C8 counterexample: with `lesson_number = 0` supplied and an empty result
set, the returned string is exactly the unfiltered message — it contains no
`0` at all, so the lesson filter is not mentioned. -/
theorem c8_counterexample :
    (CourseSearchTool.execute emptySearchStore [] "q" none (some 0)).2
        = "No relevant content found."
      ∧ ("No relevant content found.".data.contains '0') = false :=
  ⟨rfl, by decide⟩

/-- C8 amended: on an error-free empty result set the returned string
mentions the course filter whenever a truthy (non-empty) course name was
supplied, and the lesson filter whenever a truthy (non-zero) lesson number
was supplied; a supplied lesson number 0 is falsy in the source's `if
lesson_number:` test and is therefore omitted. -/
theorem c8_empty_results_filters_mentioned (store : VectorStoreModel)
    (last_sources : List SourceInfo) (query : String)
    (course_name : Option String) (lesson_number : Option Int)
    (he : strOptTruthy (store.search query course_name lesson_number).error = false)
    (hm : (store.search query course_name lesson_number).is_empty = true) :
    (strOptTruthy course_name = true →
      ∃ pre post,
        (CourseSearchTool.execute store last_sources query course_name lesson_number).2
          = pre ++ (" in course '" ++ course_name.getD "" ++ "'") ++ post)
      ∧ (∀ n, lesson_number = some n → ¬ (n = 0) →
          ∃ pre post,
            (CourseSearchTool.execute store last_sources query course_name lesson_number).2
              = pre ++ (" in lesson " ++ pyIntStr n) ++ post) := by
  constructor
  · intro hcn
    refine ⟨"No relevant content found",
      (if intOptTruthy lesson_number then " in lesson " ++ pyIntStr (lesson_number.getD 0)
       else "") ++ ".", ?_⟩
    unfold CourseSearchTool.execute
    simp only [he, hm, Bool.false_eq_true, if_false, if_true, ite_true, ite_false, hcn]
    simp [String.append_assoc]
  · intro n hn hnz
    subst hn
    have ht : intOptTruthy (some n) = true := by
      simp [intOptTruthy, hnz]
    refine ⟨"No relevant content found"
        ++ (if strOptTruthy course_name then " in course '" ++ course_name.getD "" ++ "'"
            else ""),
      ".", ?_⟩
    unfold CourseSearchTool.execute
    simp only [he, hm, Bool.false_eq_true, if_false, if_true, ite_true, ite_false, ht,
      Option.getD_some]
    simp [String.append_assoc]

theorem c8_witness :
    (∃ pre post,
        (CourseSearchTool.execute emptySearchStore [] "q" (some "MCP") (some 2)).2
          = pre ++ (" in course '" ++ (some "MCP").getD "" ++ "'") ++ post)
      ∧ (∃ pre post,
          (CourseSearchTool.execute emptySearchStore [] "q" (some "MCP") (some 2)).2
            = pre ++ (" in lesson " ++ pyIntStr 2) ++ post) := by
  have h := c8_empty_results_filters_mentioned emptySearchStore [] "q" (some "MCP")
    (some 2) rfl rfl
  exact ⟨h.1 rfl, h.2 2 rfl (by decide)⟩

/-! ## C10 -/

/-- C10: `ToolManager.execute_tool` catches nothing — for a registered tool
whose execution raises, the exception propagates to the registry's caller;
it is `AIGenerator._execute_tools` that converts the same failure into a
textual tool-result. -/
theorem c10_registry_propagates (tm : ToolManagerModel) (tool_name : String)
    (kwargs : ToolArgs) (f : ToolArgs → Except String String) (e id : String)
    (hreg : tm.tools tool_name = some f) (hf : f kwargs = Except.error e) :
    tm.execute_tool tool_name kwargs = Except.error e
      ∧ execute_tools (Response.mk "tool_use" [ContentBlock.toolUse id tool_name kwargs])
            tm.execute_tool
          = some [ToolResult.mk "tool_result" id ("Tool execution error: " ++ e)] := by
  constructor
  · unfold ToolManagerModel.execute_tool
    rw [hreg]
    exact hf
  · simp [execute_tools, toolResultFor, ToolManagerModel.execute_tool, hreg, hf]

theorem c10_witness :
    failRegistry.execute_tool "search_course_content" [] = Except.error "Tool failed"
      ∧ execute_tools
            (Response.mk "tool_use"
              [ContentBlock.toolUse "call_1" "search_course_content" []])
            failRegistry.execute_tool
          = some [ToolResult.mk "tool_result" "call_1"
              ("Tool execution error: " ++ "Tool failed")] :=
  c10_registry_propagates failRegistry "search_course_content" [] failFn "Tool failed"
    "call_1" rfl rfl

end RagSpec
